import Mathlib

/- Shallow embedding of the PR2PDF report-generation service: the PDF/HTML
renderer (server/services/pdf.ts), the GitHub diff fetcher
(server/services/github.ts), the Gemini prompt builders and insight generator
(server/services/gemini.ts), the storage layer (DatabaseStorage) and the REST
route handlers (registerRoutes).  Machine integers are modelled as Nat,
JavaScript Date values as epoch-millisecond Nats, locale-dependent date
formatting as an explicit formatter parameter, and each fallible external call
(GitHub fetch, Gemini completion, Puppeteer PDF rasterisation) as an explicit
outcome parameter threaded into the route model. -/

namespace PR2PDF

/-! Character-list utilities mirroring the JavaScript string primitives used
by the source: `String.prototype.replace(/pat/g, rep)` for one-codepoint
patterns, `String.prototype.includes`, `String.prototype.toLowerCase`. -/

/-- Does `pat` occur at the head of the second list?  (Mirrors a regex match
anchored at the current scan position.) -/
def startsWithPat : List Char → List Char → Bool
  | [], _ => true
  | _ :: _, [] => false
  | p :: ps, c :: cs => p == c && startsWithPat ps cs

/-- Does `pat` occur anywhere in `l`?  Mirrors `String.prototype.includes`. -/
def listIncludes : List Char → List Char → Bool
  | [], pat => pat.isEmpty
  | c :: t, pat => startsWithPat pat (c :: t) || listIncludes t pat

/-- `s.includes(sub)` of JavaScript. -/
def strIncludes (s sub : String) : Bool :=
  listIncludes s.data sub.data

/-- `s.toLowerCase()` of JavaScript (the source only applies it to ASCII
repository names such as `owner/name`, where `Char.toLower` agrees with it). -/
def lowerStr (s : String) : String :=
  ⟨s.data.map Char.toLower⟩

/-- One global single-codepoint substitution pass: for a one-codepoint pattern
and one-codepoint replacement, `text.replace(/src/g, dst)` is exactly a
character map. -/
def replaceChar (src dst : Char) (l : List Char) : List Char :=
  l.map (fun c => if c = src then dst else c)

/-- The one two-codepoint pass of the table: `text.replace(/⚠️/g, '⚠')`.  The
pattern is U+26A0 followed by the variation selector U+FE0F; the replacement
keeps the bare U+26A0.  Scans left to right, non-overlapping, like the
global-flag regex. -/
def replaceWarningPair : List Char → List Char
  | [] => []
  | [c] => [c]
  | c1 :: c2 :: cs =>
    if c1 = '⚠' ∧ c2 = '️' then '⚠' :: replaceWarningPair cs
    else c1 :: replaceWarningPair (c2 :: cs)

/-! Embedding of server/services/pdf.ts. -/

/-- One section of generated report content (title, content, optional bullet
items), as in the `ReportContent` interface of pdf.ts and gemini.ts. -/
structure ReportSection where
  title : String
  content : String
  items : Option (List String)
deriving Repr, DecidableEq

/-- The structured report content produced by the Content Generator. -/
structure ReportContent where
  title : String
  summary : String
  sections : List ReportSection
  recommendations : Option (List String)
  testScenarios : Option (List String)
deriving Repr, DecidableEq

/-- The fixed glyph-substitution table of `generateHTMLReport` (pdf.ts lines
79-91): ten sequential global replacements, applied in source order, the
clipboard pass first and the target pass last. -/
def replaceEmojis (text : String) : String :=
  let s1 := replaceChar '📋' '■' text.data
  let s2 := replaceChar '💡' '★' s1
  let s3 := replaceChar '📊' '▲' s2
  let s4 := replaceWarningPair s3
  let s5 := replaceChar '✅' '✓' s4
  let s6 := replaceChar '❌' '✗' s5
  let s7 := replaceChar '🔍' '○' s6
  let s8 := replaceChar '⭐' '★' s7
  let s9 := replaceChar '🚨' '!' s8
  let s10 := replaceChar '🎯' '→' s9
  ⟨s10⟩

/-- The audience badge label (pdf.ts lines 72-76): a fixed lookup with the raw
audience string as fallback. -/
def audienceTypeDisplayFor (audienceType : String) : String :=
  if audienceType = "pm" then "Project Manager"
  else if audienceType = "qa" then "Quality Assurance"
  else if audienceType = "client" then "Client"
  else audienceType

/-- The `cleanContent` object of pdf.ts lines 94-106: the substitution table
applied to every text field of the content. -/
def cleanReportContent (content : ReportContent) : ReportContent :=
  { title := replaceEmojis content.title
    summary := replaceEmojis content.summary
    sections := content.sections.map (fun sec =>
      { title := replaceEmojis sec.title
        content := replaceEmojis sec.content
        items := sec.items.map (fun items => items.map replaceEmojis) })
    recommendations := content.recommendations.map (fun recs => recs.map replaceEmojis)
    testScenarios := content.testScenarios.map (fun scenarios => scenarios.map replaceEmojis) }

/-- Document text from the opening of the HTML template up to the `<title>`
interpolation (pdf.ts lines 108-114). -/
def htmlDocA : String :=
  "\n<!DOCTYPE html>\n<html lang=\"en\">\n<head>\n    <meta charset=\"UTF-8\">\n    <meta name=\"viewport\" content=\"width=device-width, initial-scale=1.0\">\n    <title>"

/-- Document text from after the `<title>` interpolation to the `<h1>` title
interpolation: the closing head tag and the full inline stylesheet (pdf.ts
lines 114-187). -/
def htmlDocB : String :=
  "</title>\n    <style>\n        body \x7b\n            font-family: 'Arial', 'DejaVu Sans', 'Segoe UI', sans-serif;\n            line-height: 1.6;\n            color: #333;\n            max-width: 800px;\n            margin: 0 auto;\n            padding: 20px;\n        \x7d\n        .header \x7b\n            border-bottom: 3px solid #4F46E5;\n            padding-bottom: 20px;\n            margin-bottom: 30px;\n        \x7d\n        .header h1 \x7b\n            color: #4F46E5;\n            margin: 0;\n            font-size: 28px;\n        \x7d\n        .audience-badge \x7b\n            background: #4F46E5;\n            color: white;\n            padding: 5px 15px;\n            border-radius: 20px;\n            font-size: 12px;\n            display: inline-block;\n            margin-top: 10px;\n        \x7d\n        .summary \x7b\n            background: #F8FAFC;\n            padding: 20px;\n            border-left: 4px solid #4F46E5;\n            margin-bottom: 30px;\n        \x7d\n        .section \x7b\n            margin-bottom: 25px;\n        \x7d\n        .section h2 \x7b\n            color: #1E293B;\n            border-bottom: 2px solid #E2E8F0;\n            padding-bottom: 5px;\n        \x7d\n        .test-scenarios \x7b\n            background: #FEF3C7;\n            padding: 20px;\n            border-radius: 8px;\n            border-left: 4px solid #F59E0B;\n        \x7d\n        .recommendations \x7b\n            background: #ECFDF5;\n            padding: 20px;\n            border-radius: 8px;\n            border-left: 4px solid #10B981;\n        \x7d\n        ul \x7b\n            padding-left: 20px;\n        \x7d\n        li \x7b\n            margin-bottom: 8px;\n        \x7d\n        .footer \x7b\n            margin-top: 40px;\n            padding-top: 20px;\n            border-top: 1px solid #E2E8F0;\n            text-align: center;\n            color: #6B7280;\n            font-size: 12px;\n        \x7d\n    </style>\n</head>\n<body>\n    <div class=\"header\">\n        <h1>"

/-- Document text between the `<h1>` title and the audience badge
interpolation. -/
def htmlDocC : String :=
  "</h1>\n        <span class=\"audience-badge\">Report for "

/-- Document text between the audience badge and the summary interpolation:
the badge close, the summary block opening. -/
def htmlDocD : String :=
  "</span>\n    </div>\n\n    <div class=\"summary\">\n        <h2>Executive Summary</h2>\n        <p>"

/-- Document text closing the summary block, before the sections block. -/
def htmlDocE : String :=
  "</p>\n    </div>\n\n    "

/-- Document text between the sections block and the test-scenarios block. -/
def htmlDocF : String :=
  "\n\n    "

/-- Document text between the test-scenarios block and the recommendations
block. -/
def htmlDocG : String :=
  "\n\n    "

/-- Document text opening the footer, up to the date interpolation. -/
def htmlDocH : String :=
  "\n\n    <div class=\"footer\">\n        <p>Generated by PR Insight • "

/-- Document text after the date interpolation: footer close and document
close (pdf.ts lines 227-230). -/
def htmlTail : String :=
  "</p>\n    </div>\n</body>\n</html>"

/-- The nested items template of a section (pdf.ts lines 200-204): rendered
whenever the `items` array is present (JavaScript array truthiness), empty
string otherwise. -/
def sectionItemsHTML : Option (List String) → String
  | some items =>
    "\n                <ul>\n                    "
      ++ String.join (items.map (fun item => "<li>" ++ item ++ "</li>"))
      ++ "\n                </ul>\n            "
  | none => ""

/-- One section block of the template (pdf.ts lines 196-206). -/
def sectionHTML (sec : ReportSection) : String :=
  "\n        <div class=\"section\">\n            <h2>" ++ sec.title
    ++ "</h2>\n            <p>" ++ sec.content ++ "</p>\n            "
    ++ sectionItemsHTML sec.items
    ++ "\n        </div>\n    "

/-- The concatenated section blocks (`.map(...).join('')`). -/
def sectionsHTML (sections : List ReportSection) : String :=
  String.join (sections.map sectionHTML)

/-- The test-scenarios block (pdf.ts lines 208-215): rendered whenever the
`testScenarios` array is present. -/
def testScenariosHTML : Option (List String) → String
  | some scenarios =>
    "\n        <div class=\"test-scenarios\">\n            <h2>■ Recommended Test Scenarios</h2>\n            <ul>\n                "
      ++ String.join (scenarios.map (fun scenario => "<li>" ++ scenario ++ "</li>"))
      ++ "\n            </ul>\n        </div>\n    "
  | none => ""

/-- The recommendations block (pdf.ts lines 217-224): rendered whenever the
`recommendations` array is present. -/
def recommendationsHTML : Option (List String) → String
  | some recs =>
    "\n        <div class=\"recommendations\">\n            <h2>★ Recommendations</h2>\n            <ul>\n                "
      ++ String.join (recs.map (fun recText => "<li>" ++ recText ++ "</li>"))
      ++ "\n            </ul>\n        </div>\n    "
  | none => ""

/-- Everything of the rendered document that precedes the footer date
interpolation.  `titleTagText` is the text embedded in the head `<title>`
element: the source passes the raw `content.title` there (pdf.ts line 114)
while every other interpolation site uses the cleaned content. -/
def htmlMain (titleTagText : String) (cleanContent : ReportContent)
    (audienceTypeDisplay : String) : String :=
  htmlDocA ++ titleTagText ++ htmlDocB ++ cleanContent.title ++ htmlDocC
    ++ audienceTypeDisplay ++ htmlDocD ++ cleanContent.summary ++ htmlDocE
    ++ sectionsHTML cleanContent.sections ++ htmlDocF
    ++ testScenariosHTML cleanContent.testScenarios ++ htmlDocG
    ++ recommendationsHTML cleanContent.recommendations ++ htmlDocH

/-- The full HTML template with an explicit `currentDate` input standing for
`new Date().toLocaleDateString()` evaluated at render time (pdf.ts line
227). -/
def htmlTemplate (titleTagText : String) (cleanContent : ReportContent)
    (audienceTypeDisplay currentDate : String) : String :=
  htmlMain titleTagText cleanContent audienceTypeDisplay ++ currentDate ++ htmlTail

/-- `generateHTMLReport` of pdf.ts (lines 71-231): cleans the content through
the substitution table, but embeds the raw `content.title` in the head
`<title>` element, and embeds the locale-rendered current date in the
footer. -/
def generateHTMLReport (content : ReportContent) (audienceType currentDate : String) : String :=
  htmlTemplate content.title (cleanReportContent content)
    (audienceTypeDisplayFor audienceType) currentDate

/-- Modelled from the spec: the renderer the specification describes, in which
the substitution table is applied to every text field at every embedding
site — including the head `<title>` element.  Identical to
`generateHTMLReport` except for that one site; used to compare the code's
renderer against the specified one. -/
def generateHTMLReportSpec (content : ReportContent) (audienceType currentDate : String) : String :=
  htmlTemplate (replaceEmojis content.title) (cleanReportContent content)
    (audienceTypeDisplayFor audienceType) currentDate

/-! Embedding of server/services/github.ts.  Each outbound HTTP exchange is
modelled by the response the host returns: its status code, status text and
(already-decoded) payload. -/

/-- An HTTP response as the GitHub client observes it. -/
structure HttpResponseOf (α : Type) where
  status : Nat
  statusText : String
  payload : α
deriving Repr, DecidableEq

/-- The `response.ok` predicate of `fetch`: status in the range 200-299. -/
def okStatus (status : Nat) : Bool :=
  decide (200 ≤ status) && decide (status ≤ 299)

/-- The only failure `GitHubService` produces: the generic `Error` thrown by
`makeRequest` (github.ts line 46), carrying a message that embeds the HTTP
status.  The source defines no separate auth / not-found / upstream error
classes. -/
inductive GitHubClientError where
  | apiError (message : String)
deriving Repr, DecidableEq

/-- `GitHubService.makeRequest` (github.ts lines 36-50): succeeds on a 2xx
response, otherwise throws the generic error with the status in the
message. -/
def makeRequest {α : Type} (r : HttpResponseOf α) : Except GitHubClientError α :=
  if okStatus r.status then .ok r.payload
  else .error (.apiError ("GitHub API error: " ++ toString r.status ++ " " ++ r.statusText))

/-- One entry of the changed-file list returned by the files endpoint. -/
structure PRFileChange where
  filename : String
  status : String
  additions : Nat
  deletions : Nat
  patch : Option String
deriving Repr, DecidableEq

/-- The PR metadata payload (the fields of the `GitHubPR` interface that the
pipeline consumes). -/
structure GitHubPRInfo where
  id : Nat
  number : Nat
  title : String
  userLogin : String
  userAvatarUrl : String
  state : String
  createdAt : String
  updatedAt : String
  mergedAt : Option String
deriving Repr, DecidableEq

/-- The aggregated `changes` object built by `getPullRequestDetails`
(github.ts lines 125-137). -/
structure PRChanges where
  additions : Nat
  deletions : Nat
  changedFiles : Nat
  files : List PRFileChange
  diff : String
deriving Repr, DecidableEq

/-- The `GitHubPRDetails` result: PR metadata plus aggregated changes. -/
structure GitHubPRDetailsModel where
  pr : GitHubPRInfo
  changes : PRChanges
deriving Repr, DecidableEq

/-- `GitHubService.getPullRequestDetails` (github.ts lines 100-147): two
`makeRequest` calls (PR metadata, changed files) whose failures are logged and
rethrown unmodified, then a raw `fetch` of the diff whose status is never
inspected — `diffResponse.text()` is used whatever the status.  Per-file
addition/deletion counts are reduced into totals. -/
def getPullRequestDetails (prResp : HttpResponseOf GitHubPRInfo)
    (filesResp : HttpResponseOf (List PRFileChange))
    (diffResp : HttpResponseOf String) : Except GitHubClientError GitHubPRDetailsModel :=
  match makeRequest prResp with
  | .error e => .error e
  | .ok pr =>
    match makeRequest filesResp with
    | .error e => .error e
    | .ok files =>
      let diffContent := diffResp.payload
      .ok { pr := pr
            changes := {
              additions := files.foldl (fun sum f => sum + f.additions) 0
              deletions := files.foldl (fun sum f => sum + f.deletions) 0
              changedFiles := files.length
              files := files
              diff := diffContent } }

/-! Embedding of the data model (shared/schema.ts as staged in the current
schema revision) and of DatabaseStorage. -/

/-- A row of the `repositories` table. -/
structure Repository where
  id : String
  name : String
  fullName : String
  githubToken : String
  defaultBranch : String
  autoGenerate : Bool
  createdAt : Nat
  updatedAt : Nat
deriving Repr, DecidableEq

/-- The validated body of `POST /api/repositories`
(`insertRepositorySchema`): the row minus the generated id and timestamps;
`defaultBranch` and `autoGenerate` have column defaults. -/
structure InsertRepository where
  name : String
  fullName : String
  githubToken : String
  defaultBranch : Option String
  autoGenerate : Option Bool
deriving Repr, DecidableEq

/-- A row of the `pull_requests` table. -/
structure PullRequest where
  id : String
  repositoryId : String
  number : Nat
  title : String
  authorName : String
  authorAvatar : Option String
  status : String
  reviewStatus : Option String
  createdAt : Nat
  updatedAt : Nat
  mergedAt : Option Nat
  changes : Option String
  githubId : Nat
deriving Repr, DecidableEq

/-- A row of the `reports` table. -/
structure Report where
  id : String
  pullRequestId : String
  audienceType : String
  content : ReportContent
  pdfPath : Option String
  generatedAt : Nat
deriving Repr, DecidableEq

/-- A row of the `report_templates` table.  `templateContent` holds the
override system prompt stored in the jsonb column (`none` when the stored
object has no `systemPrompt` key). -/
structure ReportTemplate where
  id : String
  name : String
  description : Option String
  audienceType : String
  templateContent : Option String
  isDefault : Bool
  createdAt : Nat
  updatedAt : Nat
deriving Repr, DecidableEq

/-- The persistence store: the four tables the claims touch. -/
structure Store where
  repositories : List Repository
  pullRequests : List PullRequest
  reports : List Report
  templates : List ReportTemplate
deriving Repr, DecidableEq

/-- A repository object as serialised into an API response.  The sanitising
read methods of DatabaseStorage build an object without the `githubToken`,
`defaultBranch` and `autoGenerate` keys (modelled as `none`); serialising a
raw row keeps them all. -/
structure RepoView where
  id : String
  name : String
  fullName : String
  githubToken : Option String
  defaultBranch : Option String
  autoGenerate : Option Bool
  createdAt : Nat
  updatedAt : Nat
deriving Repr, DecidableEq

/-- The sanitised projection used by `getRepositories` / `getRepository` /
`getRepositoryByFullName` (storage lines 82-127): every column except the
token-bearing ones. -/
def sanitizeRepository (r : Repository) : RepoView :=
  { id := r.id
    name := r.name
    fullName := r.fullName
    githubToken := none
    defaultBranch := none
    autoGenerate := none
    createdAt := r.createdAt
    updatedAt := r.updatedAt }

/-- Serialisation of a full repository row, as `res.json(repository)` sends
it when `repository` is the row returned by `createRepository`. -/
def fullRepositoryView (r : Repository) : RepoView :=
  { id := r.id
    name := r.name
    fullName := r.fullName
    githubToken := some r.githubToken
    defaultBranch := some r.defaultBranch
    autoGenerate := some r.autoGenerate
    createdAt := r.createdAt
    updatedAt := r.updatedAt }

/-- Descending order on repository creation time (`orderBy desc(createdAt)`). -/
def repoCreatedGe (a b : Repository) : Prop :=
  b.createdAt ≤ a.createdAt

instance : DecidableRel repoCreatedGe :=
  fun a b => inferInstanceAs (Decidable (b.createdAt ≤ a.createdAt))

/-- Descending order on pull-request update time (`orderBy desc(updatedAt)`). -/
def prUpdatedGe (a b : PullRequest) : Prop :=
  b.updatedAt ≤ a.updatedAt

instance : DecidableRel prUpdatedGe :=
  fun a b => inferInstanceAs (Decidable (b.updatedAt ≤ a.updatedAt))

instance : IsTotal PullRequest prUpdatedGe :=
  ⟨fun a b => (Nat.le_total b.updatedAt a.updatedAt).imp id id⟩

instance : IsTrans PullRequest prUpdatedGe :=
  ⟨fun _ _ _ hab hbc => Nat.le_trans hbc hab⟩

/-- `DatabaseStorage.getRepositories` (lines 82-93): all rows ordered by
descending creation time, sanitised. -/
def storageGetRepositories (st : Store) : List RepoView :=
  (List.insertionSort repoCreatedGe st.repositories).map sanitizeRepository

/-- The row lookup underlying `getRepository`. -/
def findRepositoryRow (st : Store) (id : String) : Option Repository :=
  st.repositories.find? (fun r => r.id == id)

/-- `DatabaseStorage.getRepository` (lines 95-107): the row by id, sanitised
(the `githubToken` column is dropped for security). -/
def storageGetRepository (st : Store) (id : String) : Option RepoView :=
  (findRepositoryRow st id).map sanitizeRepository

/-- `DatabaseStorage.getPullRequest`. -/
def storageGetPullRequest (st : Store) (id : String) : Option PullRequest :=
  st.pullRequests.find? (fun p => p.id == id)

/-- `DatabaseStorage.getPullRequestsByRepository` (lines 148-154): the
repository's rows ordered by descending update time. -/
def storageGetPullRequestsByRepository (st : Store) (repositoryId : String) : List PullRequest :=
  List.insertionSort prUpdatedGe (st.pullRequests.filter (fun p => p.repositoryId == repositoryId))

/-- `DatabaseStorage.getReportTemplate`. -/
def storageGetReportTemplate (st : Store) (id : String) : Option ReportTemplate :=
  st.templates.find? (fun t => t.id == id)

/-- `DatabaseStorage.createRepository`: inserts the row and returns it. -/
def storageCreateRepository (st : Store) (r : Repository) : Store :=
  { st with repositories := st.repositories ++ [r] }

/-- `DatabaseStorage.createPullRequest`. -/
def storageCreatePullRequest (st : Store) (p : PullRequest) : Store :=
  { st with pullRequests := st.pullRequests ++ [p] }

/-- `DatabaseStorage.createReport`. -/
def storageCreateReport (st : Store) (r : Report) : Store :=
  { st with reports := st.reports ++ [r] }

/-- `DatabaseStorage.updateReport` restricted to the one update the routes
perform: back-filling `pdfPath`. -/
def updateReportPdfPath (st : Store) (id : String) (pdfPath : String) : Store :=
  { st with reports := st.reports.map (fun r =>
      if r.id == id then { r with pdfPath := some pdfPath } else r) }

/-- `DatabaseStorage.deleteReportTemplate` (lines 327-330): deletes the row
with the given id unconditionally and reports whether a row was removed.
There is no check of the `isDefault` flag. -/
def deleteReportTemplateStorage (st : Store) (id : String) : Bool × Store :=
  (st.templates.any (fun t => t.id == id),
   { st with templates := st.templates.filter (fun t => !(t.id == id)) })

/-- `DatabaseStorage.updatePullRequest` as used by the sync loop: replaces the
stored fields, keeping the row id. -/
def updatePullRequestRow (existing incoming : PullRequest) : PullRequest :=
  { incoming with id := existing.id }

/-- The upsert loop of `syncPullRequests` (github.ts lines 69-93): for each
fetched PR, update the row with the same external `githubId` or insert a new
one. -/
def syncApplyPullRequests (st : Store) (prs : List PullRequest) : Store :=
  prs.foldl (fun acc pr =>
    match acc.pullRequests.find? (fun p => p.githubId == pr.githubId) with
    | some existing =>
      { acc with pullRequests := acc.pullRequests.map (fun p =>
          if p.id == existing.id then updatePullRequestRow existing pr else p) }
    | none => storageCreatePullRequest acc pr) st

/-! Embedding of the route handlers (registerRoutes). -/

/-- Builds the repository row inserted by `createRepository` from a validated
request body: generated id, column defaults, creation timestamps. -/
def mkRepository (id : String) (now : Nat) (b : InsertRepository) : Repository :=
  { id := id
    name := b.name
    fullName := b.fullName
    githubToken := b.githubToken
    defaultBranch := b.defaultBranch.getD "main"
    autoGenerate := b.autoGenerate.getD true
    createdAt := now
    updatedAt := now }

/-- The demo-mode sentinel check of `POST /api/repositories` (routes lines
263-265): token `"demo"` or `"test"`, or a full name containing `"demo"`. -/
def isDemoModeFor (b : InsertRepository) : Bool :=
  b.githubToken == "demo" || b.githubToken == "test"
    || strIncludes (lowerStr b.fullName) "demo"

/-- The stringified `changes` payload of the first seeded demo PR (routes
lines 289-298). -/
def demoChangesJson1 : String :=
  "\x7b\"files\":[\x7b\"filename\":\"auth.js\",\"additions\":45,\"deletions\":12,\"patch\":\"@@ -1,3 +1,10 @@\\n+// New authentication system\\n+const auth = require('./auth-service');\\n+\\n export default function authenticate(req, res, next) \x7b\"\x7d]\x7d"

/-- The stringified `changes` payload of the second seeded demo PR (routes
lines 311-320). -/
def demoChangesJson2 : String :=
  "\x7b\"files\":[\x7b\"filename\":\"dashboard.jsx\",\"additions\":8,\"deletions\":3,\"patch\":\"@@ -15,7 +15,7 @@ function Dashboard() \x7b\\n-  const [loading, setLoading] = useState(true);\\n+  const [loading, setLoading] = useState(false);\"\x7d]\x7d"

/-- The two synthetic pull requests seeded in demo mode (routes lines
276-322): numbers 101 and 102, external ids `base + 1` and `base + 2` over a
random base, the second backdated by one day (86400000 ms). -/
def demoPullRequests (repositoryId prId1 prId2 : String) (base now : Nat) : List PullRequest :=
  [{ id := prId1
     repositoryId := repositoryId
     number := 101
     title := "Add new authentication feature"
     authorName := "demo-user"
     authorAvatar := some "https://github.com/demo-user.png"
     status := "open"
     reviewStatus := some "pending"
     createdAt := now
     updatedAt := now
     mergedAt := none
     changes := some demoChangesJson1
     githubId := base + 1 },
   { id := prId2
     repositoryId := repositoryId
     number := 102
     title := "Fix bug in user dashboard"
     authorName := "demo-dev"
     authorAvatar := some "https://github.com/demo-dev.png"
     status := "open"
     reviewStatus := some "approved"
     createdAt := now - 86400000
     updatedAt := now - 86400000
     mergedAt := none
     changes := some demoChangesJson2
     githubId := base + 2 }]

/-- Result of the `POST /api/repositories` handler: HTTP status, the
serialised repository body on success, the post-state of the store, and
whether each outbound GitHub operation was invoked. -/
structure CreateRepoResult where
  status : Nat
  body : Option RepoView
  store : Store
  validateCalled : Bool
  syncCalled : Bool
deriving Repr, DecidableEq

/-- `POST /api/repositories` (routes lines 258-360) on an already-validated
body.  `newRepoId`, `prId1`, `prId2` are the ids the store generates, `base`
the random demo id base, `now` the wall clock, `validateResult` the outcome of
`githubService.validateRepository`, and `syncResult` the outcome of the
initial `syncPullRequests` call (the synced rows, or the thrown error's
message).  In demo mode the repository is created with the placeholder token
and the two synthetic PRs, with no GitHub call; otherwise a failed validation
is a 400, and a failed initial sync is logged and discarded so the created
repository is still returned. -/
def postRepositories (st : Store) (b : InsertRepository)
    (newRepoId prId1 prId2 : String) (base now : Nat)
    (validateResult : Bool) (syncResult : Except String (List PullRequest)) : CreateRepoResult :=
  if isDemoModeFor b then
    let repository := mkRepository newRepoId now { b with githubToken := "demo-token-not-real" }
    let st1 := storageCreateRepository st repository
    let st2 := (demoPullRequests repository.id prId1 prId2 base now).foldl storageCreatePullRequest st1
    { status := 200
      body := some (fullRepositoryView repository)
      store := st2
      validateCalled := false
      syncCalled := false }
  else if !validateResult then
    { status := 400, body := none, store := st, validateCalled := true, syncCalled := false }
  else
    let repository := mkRepository newRepoId now b
    let st1 := storageCreateRepository st repository
    let st2 := match syncResult with
      | .ok prs => syncApplyPullRequests st1 prs
      | .error _ => st1
    { status := 200
      body := some (fullRepositoryView repository)
      store := st2
      validateCalled := true
      syncCalled := true }

/-- Result of the `POST /api/pull-requests/:id/reports` handler: HTTP status,
whether the Content Generator (`geminiService.generateReportContent`) was
invoked, and the post-state of the store. -/
structure PrReportResult where
  status : Nat
  geminiCalled : Bool
  store : Store
deriving Repr, DecidableEq

/-- The tail of the PR-report route from the Gemini call onward (routes lines
531-547): on generation failure a 500 with nothing persisted; on success the
report row is created, then the PDF step either fails (500, the content-only
report row is retained) or back-fills `pdfPath` (200). -/
def runGeminiAndPersist (st : Store) (geminiResult : Except String ReportContent)
    (pdfResult : Except String String) (newReportId prId audienceType : String)
    (now : Nat) : PrReportResult :=
  match geminiResult with
  | .error _ => { status := 500, geminiCalled := true, store := st }
  | .ok content =>
    let report : Report :=
      { id := newReportId
        pullRequestId := prId
        audienceType := audienceType
        content := content
        pdfPath := none
        generatedAt := now }
    let st1 := storageCreateReport st report
    match pdfResult with
    | .error _ => { status := 500, geminiCalled := true, store := st1 }
    | .ok pdfPath => { status := 200, geminiCalled := true, store := updateReportPdfPath st1 newReportId pdfPath }

/-- The per-repository branch of the PR-report route after template
resolution (routes lines 464-529): the demo-repository check (note that
`getRepository` strips `githubToken`, so the token comparisons run against an
absent value and only the full-name check can fire), then either the locally
built mock PR details or a real GitHub fetch that needs the `GITHUB_TOKEN`
environment variable and whose failure surfaces as a 500. -/
def runPrReportGeneration (st : Store) (repository : RepoView)
    (githubTokenEnv : Option String) (fetchResult : Except GitHubClientError Unit)
    (geminiResult : Except String ReportContent) (pdfResult : Except String String)
    (newReportId prId audienceType : String) (now : Nat) : PrReportResult :=
  let isDemoRepo := repository.githubToken == some "demo-token-not-real"
    || strIncludes (lowerStr repository.fullName) "demo"
    || repository.githubToken == some "demo"
    || repository.githubToken == some "test"
  if isDemoRepo then
    runGeminiAndPersist st geminiResult pdfResult newReportId prId audienceType now
  else
    match githubTokenEnv with
    | none => { status := 500, geminiCalled := false, store := st }
    | some _ =>
      match fetchResult with
      | .error _ => { status := 500, geminiCalled := false, store := st }
      | .ok _ => runGeminiAndPersist st geminiResult pdfResult newReportId prId audienceType now

/-- `POST /api/pull-requests/:id/reports` (routes lines 433-552): audience
validation, pull-request and repository lookups, then — when a `templateId` is
supplied — the template lookup and the audience-match check, all before any
external call. -/
def postPullRequestReport (st : Store) (githubTokenEnv : Option String)
    (fetchResult : Except GitHubClientError Unit)
    (geminiResult : Except String ReportContent) (pdfResult : Except String String)
    (newReportId : String) (now : Nat)
    (prId audienceType : String) (templateId : Option String) : PrReportResult :=
  if !(["pm", "qa", "client"].contains audienceType) then
    { status := 400, geminiCalled := false, store := st }
  else
    match storageGetPullRequest st prId with
    | none => { status := 404, geminiCalled := false, store := st }
    | some pullRequest =>
      match storageGetRepository st pullRequest.repositoryId with
      | none => { status := 404, geminiCalled := false, store := st }
      | some repository =>
        match templateId with
        | some tid =>
          match storageGetReportTemplate st tid with
          | none => { status := 404, geminiCalled := false, store := st }
          | some template =>
            if template.audienceType ≠ audienceType then
              { status := 400, geminiCalled := false, store := st }
            else
              runPrReportGeneration st repository githubTokenEnv fetchResult
                geminiResult pdfResult newReportId prId audienceType now
        | none =>
          runPrReportGeneration st repository githubTokenEnv fetchResult
            geminiResult pdfResult newReportId prId audienceType now

/-- Result of the `DELETE /api/report-templates/:id` handler. -/
structure DeleteTemplateResult where
  status : Nat
  store : Store
deriving Repr, DecidableEq

/-- `DELETE /api/report-templates/:id` (routes lines 868-879): 204 when a row
was deleted, 404 otherwise.  No guard on the template's `isDefault` flag. -/
def deleteReportTemplateRoute (st : Store) (id : String) : DeleteTemplateResult :=
  let r := deleteReportTemplateStorage st id
  if r.1 then { status := 204, store := r.2 }
  else { status := 404, store := st }

/-! Embedding of server/services/gemini.ts: the repository-scope user prompt
and the insight generator.  `fmtDate` stands for the runtime's
`Date.prototype.toLocaleDateString`, `fmtLong` for the default `Date`
to-string conversion used when a date is interpolated directly. -/

/-- One pull-request entry of the repository report input
(`RepositoryReportInput.pullRequests` of shared/schema.ts). -/
structure RepoPREntry where
  number : Nat
  title : String
  author : String
  status : String
  reviewStatus : Option String
  createdAt : Nat
  updatedAt : Nat
  mergedAt : Option Nat
deriving Repr, DecidableEq

/-- The aggregate repository block of the report input. -/
structure RepoStatsInfo where
  name : String
  fullName : String
  totalPRs : Nat
  openPRs : Nat
  closedPRs : Nat
  mergedPRs : Nat
deriving Repr, DecidableEq

/-- The development-summary block of the report input. -/
structure RepoSummaryInfo where
  activeFeatures : Nat
  completedFeatures : Nat
  totalContributors : Nat
  lastActivity : Nat
deriving Repr, DecidableEq

/-- `RepositoryReportInput` of shared/schema.ts. -/
structure RepositoryReportInput where
  repository : RepoStatsInfo
  pullRequests : List RepoPREntry
  summary : RepoSummaryInfo
deriving Repr, DecidableEq

/-- Conversion of a stored pull-request row into a report-input entry, as the
repository-report route maps it (routes lines 586-595). -/
def toRepoPREntry (pr : PullRequest) : RepoPREntry :=
  { number := pr.number
    title := pr.title
    author := pr.authorName
    status := pr.status
    reviewStatus := pr.reviewStatus
    createdAt := pr.createdAt
    updatedAt := pr.updatedAt
    mergedAt := pr.mergedAt }

/-- The `repositoryData` object built by `POST /api/repositories/:id/reports`
(routes lines 577-602): aggregate status counts, mapped PR entries in stored
order, and a summary whose contributor count deduplicates author names (the
`Set` constructor) and whose last activity is the first stored PR's update
time, falling back to the current time for an empty list. -/
def mkRepositoryData (repository : RepoView) (pullRequests : List PullRequest)
    (now : Nat) : RepositoryReportInput :=
  { repository := {
      name := repository.name
      fullName := repository.fullName
      totalPRs := pullRequests.length
      openPRs := (pullRequests.filter (fun pr => pr.status == "open")).length
      closedPRs := (pullRequests.filter (fun pr => pr.status == "closed")).length
      mergedPRs := (pullRequests.filter (fun pr => pr.status == "merged")).length }
    pullRequests := pullRequests.map toRepoPREntry
    summary := {
      activeFeatures := (pullRequests.filter (fun pr => pr.status == "open")).length
      completedFeatures := (pullRequests.filter (fun pr => pr.status == "merged")).length
      totalContributors := (pullRequests.map (fun pr => pr.authorName)).dedup.length
      lastActivity := match pullRequests with
        | [] => now
        | pr :: _ => pr.updatedAt } }

/-- One rendered entry of the recent-pull-requests block (gemini.ts lines
227-233). -/
def renderRecentPR (fmtDate : Nat → String) (pr : RepoPREntry) : String :=
  "\n- PR #" ++ toString pr.number ++ ": " ++ pr.title
    ++ "\n  - Author: " ++ pr.author
    ++ "\n  - Status: " ++ pr.status ++ " "
    ++ (match pr.reviewStatus with
        | some rs => "(" ++ rs ++ ")"
        | none => "")
    ++ "\n  - Created: " ++ fmtDate pr.createdAt
    ++ "\n  "
    ++ (match pr.mergedAt with
        | some m => "- Merged: " ++ fmtDate m
        | none => "")
    ++ "\n"

/-- The recent-pull-requests block: at most the first ten entries of the
input's PR list (`slice(0, 10)`), rendered and joined. -/
def recentPRsBlock (fmtDate : Nat → String) (d : RepositoryReportInput) : String :=
  String.join ((d.pullRequests.take 10).map (renderRecentPR fmtDate))

/-- The report-type phrase (gemini.ts lines 205-207). -/
def reportTypeDescription (reportType : String) : String :=
  if reportType == "client_overview" then "high-level client overview report"
  else "comprehensive MVP summary report for clients"

/-- The report-type-specific section list at the tail of the prompt
(gemini.ts lines 243-259). -/
def reportSectionsTail (reportType : String) : String :=
  if reportType == "mvp_summary" then
    "\nThe report sections must include:\n- Executive Summary highlighting key achievements\n- MVP Progress Overview with completion percentages\n- Feature Delivery Analysis with business impact\n- Development Quality Assessment\n- Team Performance Metrics\n- Risk Analysis and Mitigation Plans\n- Future Roadmap and Recommendations\n"
  else
    "\nThe report sections must include:\n- Overall project health and status\n- Key deliverables and achievements\n- Business impact of completed features\n- Timeline adherence and delivery predictability\n- Quality assurance and testing coverage\n"

/-- The part of the repository-scope user prompt that precedes the
recent-pull-requests block (gemini.ts lines 209-226): repository
identification, the aggregate PR counts, and the development summary with the
contributor count.  `${repositoryData.summary.lastActivity}` interpolates a
`Date` directly, hence `fmtLong`. -/
def promptHead (fmtLong : Nat → String) (d : RepositoryReportInput) : String :=
  "\nAnalyze the following repository and generate a comprehensive MVP summary report for clients:\n\n**Repository Information:**\n- Name: "
    ++ d.repository.name ++ "\n"
    ++ "- Full Name: " ++ d.repository.fullName ++ "\n"
    ++ "- Total Pull Requests: " ++ toString d.repository.totalPRs ++ "\n"
    ++ "- Open PRs: " ++ toString d.repository.openPRs ++ "\n"
    ++ "- Closed PRs: " ++ toString d.repository.closedPRs ++ "\n"
    ++ "- Merged PRs: " ++ toString d.repository.mergedPRs
    ++ "\n\n**Development Summary:**\n"
    ++ "- Active Features: " ++ toString d.summary.activeFeatures ++ "\n"
    ++ "- Completed Features: " ++ toString d.summary.completedFeatures ++ "\n"
    ++ "- Contributors: " ++ toString d.summary.totalContributors ++ "\n"
    ++ "- Last Activity: " ++ fmtLong d.summary.lastActivity
    ++ "\n\n**Recent Pull Requests:**\n"

/-- The part of the repository-scope user prompt that follows the
recent-pull-requests block (gemini.ts lines 235-262). -/
def promptTail (reportType : String) : String :=
  "\n\nGenerate a " ++ reportTypeDescription reportType
    ++ " that highlights:\n1. Overall project progress and achievements\n2. Key features delivered and in development\n3. Development velocity and team productivity\n4. Quality indicators and code review practices\n5. Upcoming milestones and deliverables\n6. Risk assessment and mitigation strategies\n\n"
    ++ reportSectionsTail reportType
    ++ "\n\nThe report should be suitable for client presentation and demonstrate the value delivered.\n"

/-- The repository-scope user prompt of
`generateRepositoryReportContent` (gemini.ts lines 209-262). -/
def buildRepositoryUserPrompt (fmtDate fmtLong : Nat → String)
    (d : RepositoryReportInput) (reportType : String) : String :=
  promptHead fmtLong d ++ recentPRsBlock fmtDate d ++ promptTail reportType

/-- One insight of the secondary analysis call (the `InsightData` interface
of gemini.ts). -/
structure InsightData where
  type : String
  title : String
  description : String
  severity : String
deriving Repr, DecidableEq

/-- What `GeminiService.generateInsights` returns together with whether the
LLM endpoint was contacted. -/
structure GenerateInsightsResult where
  insights : List InsightData
  llmCalled : Bool
deriving Repr, DecidableEq

/-- The LLM endpoint's behaviour on an insights request: no response text
(`response.text` empty), or a parsed JSON object whose `insights` field may be
absent. -/
inductive GeminiInsightsResponse where
  | noText
  | insightsJson (insights : Option (List InsightData))
deriving Repr, DecidableEq

/-- `GeminiService.generateInsights` (gemini.ts lines 111-193): an empty
pull-request list short-circuits to an empty result before any endpoint call;
otherwise the endpoint is contacted, an empty response text is an error
(wrapped by the catch block), and a missing `insights` field falls back to the
empty list. -/
def generateInsights (resp : GeminiInsightsResponse)
    (pullRequests : List PullRequest) : Except String GenerateInsightsResult :=
  if pullRequests.length = 0 then
    .ok { insights := [], llmCalled := false }
  else
    match resp with
    | .noText => .error "Failed to generate insights: Error: Empty response from Gemini"
    | .insightsJson insights => .ok { insights := insights.getD [], llmCalled := true }

/-! Concrete fixtures used by the counterexamples and witnesses. -/

/-- A small structured report content. -/
def sampleReportContent : ReportContent :=
  { title := "Auth feature review"
    summary := "Adds a login flow."
    sections := [{ title := "Scope"
                   content := "Two files changed."
                   items := some ["auth.js", "dashboard.jsx"] }]
    recommendations := some ["Add tests"]
    testScenarios := none }

/-- Report content whose title carries a glyph of the substitution table. -/
def emojiTitleReport : ReportContent :=
  { title := "📋 Sprint Report"
    summary := "All good."
    sections := []
    recommendations := none
    testScenarios := none }

/-- Report content whose title is untouched by the substitution table but
whose summary is not. -/
def cleanTitleReport : ReportContent :=
  { title := "Release summary"
    summary := "💡 Faster login."
    sections := []
    recommendations := none
    testScenarios := none }

/-- An empty store. -/
def emptyStore : Store :=
  { repositories := [], pullRequests := [], reports := [], templates := [] }

/-- A stored repository row. -/
def c2Repo : Repository :=
  { id := "repo-1"
    name := "widgets"
    fullName := "acme/widgets"
    githubToken := "ghp-secret"
    defaultBranch := "main"
    autoGenerate := true
    createdAt := 1000
    updatedAt := 1000 }

/-- A stored pull-request row of `c2Repo`. -/
def c2PR : PullRequest :=
  { id := "pr-1"
    repositoryId := "repo-1"
    number := 7
    title := "Add login"
    authorName := "kinga"
    authorAvatar := none
    status := "open"
    reviewStatus := some "pending"
    createdAt := 1500
    updatedAt := 1600
    mergedAt := none
    changes := none
    githubId := 900001 }

/-- A stored template whose audience is `qa`. -/
def c2Template : ReportTemplate :=
  { id := "tpl-1"
    name := "QA deep dive"
    description := none
    audienceType := "qa"
    templateContent := some "Focus on tests."
    isDefault := false
    createdAt := 1000
    updatedAt := 1000 }

/-- A store holding `c2Repo`, `c2PR` and `c2Template`. -/
def c2Store : Store :=
  { repositories := [c2Repo]
    pullRequests := [c2PR]
    reports := []
    templates := [c2Template] }

/-- A repository-creation body carrying the demo sentinel token. -/
def demoBody : InsertRepository :=
  { name := "widgets"
    fullName := "acme/widgets"
    githubToken := "demo"
    defaultBranch := none
    autoGenerate := none }

/-- A repository-creation body with a real-looking token and a full name with
no demo sentinel. -/
def liveBody : InsertRepository :=
  { name := "widgets"
    fullName := "acme/widgets"
    githubToken := "ghp-live-token"
    defaultBranch := none
    autoGenerate := none }

/-- A stored default template (the `isDefault` flag set). -/
def defaultQaTemplate : ReportTemplate :=
  { id := "tpl-default-qa"
    name := "QA Report Template"
    description := some "Default QA-focused report structure"
    audienceType := "qa"
    templateContent := some "Focus on QUALITY ASSURANCE perspective"
    isDefault := true
    createdAt := 500
    updatedAt := 500 }

/-- A store holding only the default template. -/
def defaultTemplateStore : Store :=
  { repositories := [], pullRequests := [], reports := [], templates := [defaultQaTemplate] }

/-- A successful PR-metadata response. -/
def prOkResp : HttpResponseOf GitHubPRInfo :=
  { status := 200
    statusText := "OK"
    payload := {
      id := 900001
      number := 7
      title := "Add login"
      userLogin := "kinga"
      userAvatarUrl := "https://github.com/kinga.png"
      state := "open"
      createdAt := "2025-08-01T10:00:00Z"
      updatedAt := "2025-08-02T10:00:00Z"
      mergedAt := none } }

/-- A successful changed-files response with two files. -/
def filesOkResp : HttpResponseOf (List PRFileChange) :=
  { status := 200
    statusText := "OK"
    payload := [
      { filename := "auth.js"
        status := "modified"
        additions := 45
        deletions := 12
        patch := some "@@ -1,3 +1,10 @@" },
      { filename := "dashboard.jsx"
        status := "modified"
        additions := 8
        deletions := 3
        patch := none }] }

/-- A failed raw-diff response (HTTP 502). -/
def diffFailResp : HttpResponseOf String :=
  { status := 502
    statusText := "Bad Gateway"
    payload := "upstream error page" }

/-! Theorems. -/

/-- Two renders of the template agree exactly when the interpolated date
strings agree: the date is the only input of the template besides the content
and the audience display. -/
theorem htmlTemplate_eq_iff_date_eq (titleTagText : String) (cleanContent : ReportContent)
    (audienceTypeDisplay d1 d2 : String) :
    htmlTemplate titleTagText cleanContent audienceTypeDisplay d1
      = htmlTemplate titleTagText cleanContent audienceTypeDisplay d2 ↔ d1 = d2 := by
  constructor
  · intro h
    have hd := congrArg String.data h
    simp only [htmlTemplate, String.data_append] at hd
    exact String.ext (List.append_cancel_left (List.append_cancel_right hd))
  · intro h
    rw [h]

/-- C1.  The claim asserts byte-identical HTML "on every call and at every
time"; the footer interpolates `new Date().toLocaleDateString()` (pdf.ts line
227), so renders on days with different locale date strings differ.  What
holds instead: the rendered HTML is a function of the content, the audience
tag and the render-time locale date string alone — two renders are
byte-identical exactly when those date strings coincide. -/
theorem c1_render_deterministic_up_to_date :
    ∀ (content : ReportContent) (audienceType d1 d2 : String),
      generateHTMLReport content audienceType d1 = generateHTMLReport content audienceType d2
        ↔ d1 = d2 :=
  fun content audienceType d1 d2 =>
    htmlTemplate_eq_iff_date_eq content.title (cleanReportContent content)
      (audienceTypeDisplayFor audienceType) d1 d2

/-- C1, counterexample to the claim as stated: the same content and audience
rendered under two different current dates give different HTML. -/
theorem c1_counterexample :
    generateHTMLReport sampleReportContent "pm" "8/1/2025"
      ≠ generateHTMLReport sampleReportContent "pm" "8/2/2025" := by
  intro h
  have hdates : ("8/1/2025" : String) = "8/2/2025" :=
    (htmlTemplate_eq_iff_date_eq sampleReportContent.title
      (cleanReportContent sampleReportContent) (audienceTypeDisplayFor "pm")
      "8/1/2025" "8/2/2025").mp h
  exact absurd hdates (by decide)

/-- C4.  The claim asserts the substitution table is applied everywhere a
content text field is embedded; the head `<title>` element embeds the raw
`content.title` (pdf.ts line 114).  What holds instead: whenever the title is
a fixed point of the table, the code's render coincides with the
fully-substituted render, i.e. every other embedding site substitutes. -/
theorem c4_substitution_all_sites_except_title (content : ReportContent)
    (audienceType currentDate : String)
    (h : replaceEmojis content.title = content.title) :
    generateHTMLReport content audienceType currentDate
      = generateHTMLReportSpec content audienceType currentDate := by
  unfold generateHTMLReport generateHTMLReportSpec
  rw [h]

/-- C4, witness: a title untouched by the table, a summary that is not. -/
theorem c4_witness :
    replaceEmojis cleanTitleReport.title = cleanTitleReport.title
      ∧ generateHTMLReport cleanTitleReport "qa" "2/2/2025"
        = generateHTMLReportSpec cleanTitleReport "qa" "2/2/2025" :=
  ⟨by decide, c4_substitution_all_sites_except_title cleanTitleReport "qa" "2/2/2025" (by decide)⟩

set_option maxRecDepth 100000 in
/-- C4, counterexample to the claim as stated: with a clipboard glyph in the
title, the code's render differs from the fully-substituted render, and the
raw glyph — which the table maps to a filled square — survives into the
output. -/
theorem c4_counterexample :
    generateHTMLReport emojiTitleReport "pm" "1/1/2025"
        ≠ generateHTMLReportSpec emojiTitleReport "pm" "1/1/2025"
      ∧ listIncludes (generateHTMLReport emojiTitleReport "pm" "1/1/2025").data [ '📋' ] = true := by
  constructor
  · decide
  · decide

/-- C2.  When the request names a template whose stored `audienceType`
differs from the requested one, the PR-report route answers 400, the Content
Generator is never invoked, and the store — in particular its report table —
is unchanged. -/
theorem c2_template_audience_mismatch (st : Store) (githubTokenEnv : Option String)
    (fetchResult : Except GitHubClientError Unit)
    (geminiResult : Except String ReportContent) (pdfResult : Except String String)
    (newReportId : String) (now : Nat) (prId audienceType tid : String)
    (pullRequest : PullRequest) (repository : RepoView) (template : ReportTemplate)
    (haud : (["pm", "qa", "client"].contains audienceType) = true)
    (hpr : storageGetPullRequest st prId = some pullRequest)
    (hrepo : storageGetRepository st pullRequest.repositoryId = some repository)
    (htpl : storageGetReportTemplate st tid = some template)
    (hmismatch : template.audienceType ≠ audienceType) :
    postPullRequestReport st githubTokenEnv fetchResult geminiResult pdfResult
        newReportId now prId audienceType (some tid)
      = { status := 400, geminiCalled := false, store := st } := by
  simp [postPullRequestReport, haud, hpr, hrepo, htpl, hmismatch]

/-- C2, witness: a stored `qa` template named by a `pm` report request. -/
theorem c2_witness :
    (["pm", "qa", "client"].contains "pm") = true
      ∧ storageGetPullRequest c2Store "pr-1" = some c2PR
      ∧ storageGetRepository c2Store "repo-1" = some (sanitizeRepository c2Repo)
      ∧ storageGetReportTemplate c2Store "tpl-1" = some c2Template
      ∧ c2Template.audienceType ≠ "pm"
      ∧ postPullRequestReport c2Store (some "env-token") (.ok ()) (.error "no llm")
          (.error "no pdf") "rep-1" 2000 "pr-1" "pm" (some "tpl-1")
        = { status := 400, geminiCalled := false, store := c2Store } :=
  ⟨by decide, by decide, by decide, by decide, by decide,
   c2_template_audience_mismatch c2Store (some "env-token") (.ok ()) (.error "no llm")
     (.error "no pdf") "rep-1" 2000 "pr-1" "pm" "tpl-1" c2PR (sanitizeRepository c2Repo)
     c2Template (by decide) (by decide) (by decide) (by decide) (by decide)⟩

/-- C3.  The claim as amended: repository objects returned by the sanitising
read methods backing the GET routes (`getRepositories`, `getRepository`)
always omit the `githubToken` field; the POST create route, by contrast,
serialises the raw created row (see the counterexample). -/
theorem c3_get_routes_omit_token :
    ∀ (st : Store) (id : String),
      ((storageGetRepositories st).all fun v => v.githubToken == none) = true
        ∧ ((storageGetRepository st id).all fun v => v.githubToken == none) = true := by
  intro st id
  constructor
  · simp [storageGetRepositories, List.all_map, sanitizeRepository, Function.comp]
  · cases h : findRepositoryRow st id <;>
      simp [storageGetRepository, h, sanitizeRepository]

/-- C3, counterexample to the claim as stated: `POST /api/repositories` in
demo mode responds with the created row, whose `githubToken` field is present
(the stored placeholder token), not omitted or nulled. -/
theorem c3_counterexample :
    ((postRepositories emptyStore demoBody "repo-1" "pr-1" "pr-2" 41 1700000000000 true
        (.ok [])).body.map RepoView.githubToken)
      = some (some "demo-token-not-real") := by
  decide

/-- C5.  The claim says default templates are not user-deletable; the DELETE
route removes them: with a store holding one template flagged `isDefault`, the
route answers 204 and the template is gone from the store. -/
theorem c5_default_template_deleted :
    (storageGetReportTemplate defaultTemplateStore "tpl-default-qa").map ReportTemplate.isDefault
        = some true
      ∧ (deleteReportTemplateRoute defaultTemplateStore "tpl-default-qa").status = 204
      ∧ storageGetReportTemplate
          (deleteReportTemplateRoute defaultTemplateStore "tpl-default-qa").store
          "tpl-default-qa" = none := by
  refine ⟨by decide, by decide, by decide⟩

/-- C6.  A repository-creation request whose token is `"demo"` succeeds with
the created repository, calls neither `validateRepository` nor
`syncPullRequests`, and seeds exactly the two synthetic pull requests, whose
external GitHub identifiers are distinct. -/
theorem c6_demo_mode_seeds_prs (st : Store) (b : InsertRepository)
    (newRepoId prId1 prId2 : String) (base now : Nat) (validateResult : Bool)
    (syncResult : Except String (List PullRequest))
    (hdemo : b.githubToken = "demo") :
    let r := postRepositories st b newRepoId prId1 prId2 base now validateResult syncResult
    r.status = 200
      ∧ r.body = some (fullRepositoryView
          (mkRepository newRepoId now { b with githubToken := "demo-token-not-real" }))
      ∧ r.validateCalled = false
      ∧ r.syncCalled = false
      ∧ r.store.pullRequests = st.pullRequests ++ demoPullRequests newRepoId prId1 prId2 base now
      ∧ ((demoPullRequests newRepoId prId1 prId2 base now).map (fun p => p.githubId)).Nodup
      ∧ (demoPullRequests newRepoId prId1 prId2 base now).length = 2 := by
  have hd : isDemoModeFor b = true := by
    simp [isDemoModeFor, hdemo]
  refine ⟨?_, ?_, ?_, ?_, ?_, ?_, ?_⟩ <;>
    simp [postRepositories, hd, demoPullRequests, mkRepository, storageCreateRepository,
      storageCreatePullRequest, List.append_assoc]

/-- C6, witness: the concrete demo body against the empty store. -/
theorem c6_witness :
    demoBody.githubToken = "demo"
      ∧ (let r := postRepositories emptyStore demoBody "repo-1" "pr-1" "pr-2" 41 1700000000000
             false (.error "unused")
         r.status = 200
           ∧ r.body = some (fullRepositoryView
               (mkRepository "repo-1" 1700000000000 { demoBody with githubToken := "demo-token-not-real" }))
           ∧ r.validateCalled = false
           ∧ r.syncCalled = false
           ∧ r.store.pullRequests
             = emptyStore.pullRequests ++ demoPullRequests "repo-1" "pr-1" "pr-2" 41 1700000000000
           ∧ ((demoPullRequests "repo-1" "pr-1" "pr-2" 41 1700000000000).map (fun p => p.githubId)).Nodup
           ∧ (demoPullRequests "repo-1" "pr-1" "pr-2" 41 1700000000000).length = 2) :=
  ⟨rfl, c6_demo_mode_seeds_prs emptyStore demoBody "repo-1" "pr-1" "pr-2" 41 1700000000000
    false (.error "unused") rfl⟩

/-- C7.  The claim as amended: a non-2xx response to the PR-metadata or
changed-files call makes the fetch fail with the one generic error the client
defines — `GitHub API error: <status> <statusText>` — whatever the status
(401, 403, 404 and 5xx all produce the same `apiError` constructor, not
distinct auth / not-found / upstream classes), the error being rethrown to the
caller unmodified; and when both of those calls succeed the fetch succeeds,
because the raw-diff response's status is never inspected. -/
theorem c7_generic_error_taxonomy :
    ∀ (prResp : HttpResponseOf GitHubPRInfo) (filesResp : HttpResponseOf (List PRFileChange))
      (diffResp : HttpResponseOf String),
      (okStatus prResp.status = false →
        getPullRequestDetails prResp filesResp diffResp
          = .error (.apiError ("GitHub API error: " ++ toString prResp.status ++ " "
              ++ prResp.statusText)))
        ∧ (okStatus prResp.status = true → okStatus filesResp.status = false →
          getPullRequestDetails prResp filesResp diffResp
            = .error (.apiError ("GitHub API error: " ++ toString filesResp.status ++ " "
                ++ filesResp.statusText)))
        ∧ (okStatus prResp.status = true → okStatus filesResp.status = true →
          (getPullRequestDetails prResp filesResp diffResp).isOk = true) := by
  intro prResp filesResp diffResp
  refine ⟨fun h1 => ?_, fun h1 h2 => ?_, fun h1 h2 => ?_⟩ <;>
    simp [getPullRequestDetails, makeRequest, h1, *, Except.isOk, Except.toBool]

/-- C7, counterexample to the claim as stated: a PR-details fetch whose
raw-diff request returns HTTP 502 does not fail at all — the fetch succeeds,
contradicting "fails ... with UpstreamError for any other non-2xx
response". -/
theorem c7_counterexample :
    okStatus diffFailResp.status = false
      ∧ (getPullRequestDetails prOkResp filesOkResp diffFailResp).isOk = true := by
  refine ⟨by decide, by decide⟩

/-- C9.  In non-demo mode, when validation succeeds and the initial
pull-request sync fails, the route still answers 200 with the created
repository, and the repository row remains in the store (the sync error is
logged and discarded). -/
theorem c9_sync_failure_discarded (st : Store) (b : InsertRepository)
    (newRepoId prId1 prId2 : String) (base now : Nat) (e : String)
    (hdemo : isDemoModeFor b = false) :
    let r := postRepositories st b newRepoId prId1 prId2 base now true (.error e)
    r.status = 200
      ∧ r.body = some (fullRepositoryView (mkRepository newRepoId now b))
      ∧ r.syncCalled = true
      ∧ r.store.repositories = st.repositories ++ [mkRepository newRepoId now b] := by
  refine ⟨?_, ?_, ?_, ?_⟩ <;>
    simp [postRepositories, hdemo, storageCreateRepository]

/-- C9, witness: a live-token body whose initial sync throws. -/
theorem c9_witness :
    isDemoModeFor liveBody = false
      ∧ (let r := postRepositories emptyStore liveBody "repo-9" "p-1" "p-2" 7 5000 true
             (.error "GitHub API error: 500 Internal Server Error")
         r.status = 200
           ∧ r.body = some (fullRepositoryView (mkRepository "repo-9" 5000 liveBody))
           ∧ r.syncCalled = true
           ∧ r.store.repositories = emptyStore.repositories ++ [mkRepository "repo-9" 5000 liveBody]) :=
  ⟨by decide, c9_sync_failure_discarded emptyStore liveBody "repo-9" "p-1" "p-2" 7 5000
    "GitHub API error: 500 Internal Server Error" (by decide)⟩

/-- C10.  On the empty pull-request list the insight generator returns the
empty insight list with the LLM endpoint never contacted, whatever the
endpoint would have answered. -/
theorem c10_empty_prs_no_llm_call :
    ∀ (resp : GeminiInsightsResponse),
      generateInsights resp [] = .ok { insights := [], llmCalled := false } := by
  intro resp
  rfl

/-- A string that appears as a contiguous segment of a concatenation is an
infix of it. -/
theorem strInfix_of_split (w p x s : String) (h : w = p ++ (x ++ s)) :
    x.data <:+: w.data := by
  subst h
  exact ⟨p.data, s.data, by simp [String.data_append, List.append_assoc]⟩

/-- The same infix fact from a character-level decomposition. -/
theorem strInfix_of_splitData (w p x s : String)
    (h : w.data = p.data ++ (x.data ++ s.data)) :
    x.data <:+: w.data :=
  ⟨p.data, s.data, by rw [h, List.append_assoc]⟩

/-- In a list sorted by descending update time, every element kept by
`take n` was updated no earlier than every element discarded by `drop n`. -/
theorem sorted_take_drop_prUpdated (l : List PullRequest) (h : l.Sorted prUpdatedGe)
    (n : Nat) :
    ∀ x ∈ l.take n, ∀ y ∈ l.drop n, y.updatedAt ≤ x.updatedAt := by
  have hp : List.Pairwise prUpdatedGe (l.take n ++ l.drop n) := by
    rwa [List.take_append_drop]
  exact fun x hx y hy => (List.pairwise_append.mp hp).2.2 x hx y hy

/-- C8.  The repository-scope user prompt renders the first ten entries of
the stored PR list — which `getPullRequestsByRepository` returns sorted by
descending update time, so every rendered PR was updated no earlier than every
omitted one — and the prompt carries that block together with the aggregate
PR count and the contributor count. -/
theorem c8_repo_prompt_lists_recent_prs :
    ∀ (st : Store) (repositoryId : String) (repository : RepoView)
      (fmtDate fmtLong : Nat → String) (now : Nat) (reportType : String),
      let prs := storageGetPullRequestsByRepository st repositoryId
      let d := mkRepositoryData repository prs now
      let prompt := buildRepositoryUserPrompt fmtDate fmtLong d reportType
      (d.pullRequests.take 10).length ≤ 10
        ∧ d.pullRequests = prs.map toRepoPREntry
        ∧ (∀ x ∈ prs.take 10, ∀ y ∈ prs.drop 10, y.updatedAt ≤ x.updatedAt)
        ∧ (recentPRsBlock fmtDate d).data <:+: prompt.data
        ∧ ("- Total Pull Requests: " ++ toString d.repository.totalPRs).data <:+: prompt.data
        ∧ ("- Contributors: " ++ toString d.summary.totalContributors).data <:+: prompt.data := by
  intro st repositoryId repository fmtDate fmtLong now reportType prs d prompt
  refine ⟨?_, ?_, ?_, ?_, ?_, ?_⟩
  · simp only [List.length_take]
    exact Nat.min_le_left _ _
  · rfl
  · have hs : (storageGetPullRequestsByRepository st repositoryId).Sorted prUpdatedGe :=
      List.sorted_insertionSort prUpdatedGe _
    exact sorted_take_drop_prUpdated _ hs 10
  · exact strInfix_of_split (buildRepositoryUserPrompt fmtDate fmtLong d reportType)
      (promptHead fmtLong d) (recentPRsBlock fmtDate d) (promptTail reportType)
      (by simp [buildRepositoryUserPrompt, String.append_assoc])
  · exact strInfix_of_splitData (buildRepositoryUserPrompt fmtDate fmtLong d reportType)
      ("\nAnalyze the following repository and generate a comprehensive MVP summary report for clients:\n\n**Repository Information:**\n- Name: "
        ++ d.repository.name ++ "\n"
        ++ "- Full Name: " ++ d.repository.fullName ++ "\n")
      ("- Total Pull Requests: " ++ toString d.repository.totalPRs)
      ("\n"
        ++ "- Open PRs: " ++ toString d.repository.openPRs ++ "\n"
        ++ "- Closed PRs: " ++ toString d.repository.closedPRs ++ "\n"
        ++ "- Merged PRs: " ++ toString d.repository.mergedPRs
        ++ "\n\n**Development Summary:**\n"
        ++ "- Active Features: " ++ toString d.summary.activeFeatures ++ "\n"
        ++ "- Completed Features: " ++ toString d.summary.completedFeatures ++ "\n"
        ++ "- Contributors: " ++ toString d.summary.totalContributors ++ "\n"
        ++ "- Last Activity: " ++ fmtLong d.summary.lastActivity
        ++ "\n\n**Recent Pull Requests:**\n"
        ++ recentPRsBlock fmtDate d ++ promptTail reportType)
      (by simp only [buildRepositoryUserPrompt, promptHead, String.data_append, List.append_assoc])
  · exact strInfix_of_splitData (buildRepositoryUserPrompt fmtDate fmtLong d reportType)
      ("\nAnalyze the following repository and generate a comprehensive MVP summary report for clients:\n\n**Repository Information:**\n- Name: "
        ++ d.repository.name ++ "\n"
        ++ "- Full Name: " ++ d.repository.fullName ++ "\n"
        ++ "- Total Pull Requests: " ++ toString d.repository.totalPRs ++ "\n"
        ++ "- Open PRs: " ++ toString d.repository.openPRs ++ "\n"
        ++ "- Closed PRs: " ++ toString d.repository.closedPRs ++ "\n"
        ++ "- Merged PRs: " ++ toString d.repository.mergedPRs
        ++ "\n\n**Development Summary:**\n"
        ++ "- Active Features: " ++ toString d.summary.activeFeatures ++ "\n"
        ++ "- Completed Features: " ++ toString d.summary.completedFeatures ++ "\n")
      ("- Contributors: " ++ toString d.summary.totalContributors)
      ("\n"
        ++ "- Last Activity: " ++ fmtLong d.summary.lastActivity
        ++ "\n\n**Recent Pull Requests:**\n"
        ++ recentPRsBlock fmtDate d ++ promptTail reportType)
      (by simp only [buildRepositoryUserPrompt, promptHead, String.data_append, List.append_assoc])

end PR2PDF
